import Mathlib

/-!
# Verification of the VAP proxy / SDK against its specification

A shallow embedding of `vap_mcp_proxy.py` and of the `vape_client` SDK
(`async_client.py`, `webhooks.py`), together with theorems settling the
frozen behavioural claims about the JSON-RPC session loop, the tool
handlers, the retry policy, the transport headers and the webhook
signature helpers.

JSON values decoded by `json.loads` are modelled by the inductive type
`Json`; Python numbers (int and float alike) are modelled by `ℚ`, which
reproduces Python's cross-type numeric equality (`4 == 4.0`).  The HTTP
side effects are passed in explicitly: each handler takes the transport
responses as a parameter, and the payload a handler sends is returned as
data, so that "no outbound call was made" is an observable fact.
-/

/-- A decoded JSON value (the result of Python's `json.loads`). -/
inductive Json where
  | null
  | bool (b : Bool)
  | num (q : ℚ)
  | str (s : String)
  | arr (elems : List Json)
  | obj (members : List (String × Json))

mutual
/-- Python `==` on decoded JSON values: structural equality, with numbers
compared as rationals (so an integer and an equal float compare equal,
as in Python).  Dict comparison is structural (key order sensitive),
which agrees with Python on every comparison the program performs, since
the program only ever compares scalars. -/
def jeq : Json → Json → Bool
  | .null, .null => true
  | .bool x, .bool y => x == y
  | .num x, .num y => x == y
  | .str x, .str y => x == y
  | .arr xs, .arr ys => jeqList xs ys
  | .obj xs, .obj ys => jeqObj xs ys
  | _, _ => false
def jeqList : List Json → List Json → Bool
  | [], [] => true
  | x :: xs, y :: ys => jeq x y && jeqList xs ys
  | _, _ => false
def jeqObj : List (String × Json) → List (String × Json) → Bool
  | [], [] => true
  | (k, v) :: xs, (l, w) :: ys => k == l && jeq v w && jeqObj xs ys
  | _, _ => false
end

/-- Python truthiness of a decoded JSON value (`bool(x)`). -/
def Json.truthy : Json → Bool
  | .null => false
  | .bool b => b
  | .num q => q != 0
  | .str s => s != ""
  | .arr xs => !xs.isEmpty
  | .obj kvs => !kvs.isEmpty

/-- Python `a or b` on decoded JSON values: the first operand if truthy,
otherwise the second. -/
def pyOr (a b : Json) : Json := if a.truthy then a else b

/-- `d.get(k, default)` on a Python dict decoded from JSON; on a non-dict
value `.get` raises `AttributeError`, modelled by `.error`. -/
def jGet? (j : Json) (k : String) (d : Json) : Except String Json :=
  match j with
  | .obj kvs => .ok ((kvs.lookup k).getD d)
  | _ => .error "AttributeError: get"

/-- `d.get(k, default)` where the receiver is already known to be a dict. -/
def objGetD (kvs : List (String × Json)) (k : String) (d : Json) : Json :=
  (kvs.lookup k).getD d

/-- Substring test, modelling Python `pat in s` on strings. -/
def strContainsSub (s pat : String) : Bool :=
  s.toList.tails.any (fun t => pat.toList.isPrefixOf t)

/-- Python `k in x` for a decoded JSON value `x`: key membership for dicts,
element membership for lists, substring test for strings, `TypeError`
otherwise. -/
def pyContains (j : Json) (k : String) : Except String Bool :=
  match j with
  | .obj kvs => .ok (kvs.lookup k).isSome
  | .arr xs => .ok (xs.any (fun x => jeq x (.str k)))
  | .str s => .ok (strContainsSub s k)
  | _ => .error "TypeError: argument of type is not iterable"

/-- Python `x[k]` for a string key `k`: dict indexing (with `KeyError` when
the key is missing), `TypeError` on any other value. -/
def pyIndex (j : Json) (k : String) : Except String Json :=
  match j with
  | .obj kvs =>
    match kvs.lookup k with
    | some v => .ok v
    | none => .error ("KeyError: " ++ k)
  | _ => .error "TypeError: indices must be integers"

/-- Python `line.strip()`: removes leading and trailing whitespace. -/
def pyStrip (s : String) : String :=
  String.mk (((s.toList.dropWhile Char.isWhitespace).reverse.dropWhile
    Char.isWhitespace).reverse)

/-- Whether a JSON value is hashable in Python (usable as a dict key):
lists and dicts are not. -/
def Json.hashable : Json → Bool
  | .arr _ => false
  | .obj _ => false
  | _ => true

/-- Digit string of `n` with a decimal point `k` digits from the right
(zero-padding the integer part), e.g. `decDigits 180 2 = "1.80"`. -/
def decDigits (n : Nat) (k : Nat) : String :=
  if k = 0 then toString n
  else
    let s := toString n
    let s := if s.length ≤ k then String.mk (List.replicate (k + 1 - s.length) '0') ++ s else s
    s.take (s.length - k) ++ "." ++ s.drop (s.length - k)

/-- Least exponent `k ≤ 30` such that `q * 10 ^ k` is an integer, if any. -/
def ratDecExp (q : ℚ) : Option Nat :=
  (List.range 31).find? fun k => (q * (10 : ℚ) ^ k).den = 1

/-- Decimal rendering of a rational, modelling Python `str()` on the
numbers the program handles: integers render with no point (`"4"`),
finite decimals minimally (`"2.4"`). -/
def decimalOfRat (q : ℚ) : String :=
  match ratDecExp q with
  | some k =>
    let m := (q * (10 : ℚ) ^ k).num
    (if m < 0 then "-" else "") ++ decDigits m.natAbs k
  | none => toString q.num ++ "/" ++ toString q.den

/-- Python `f"{x:.2f}"` for the exact two-decimal prices in the cost
table. -/
def format2f (q : ℚ) : String :=
  let m := q * 100
  if m.den = 1 then (if m.num < 0 then "-" else "") ++ decDigits m.num.natAbs 2
  else decimalOfRat q

mutual
/-- Python `str()` of a decoded JSON value, as interpolated by f-strings.
Exact on the scalar values the proofs exercise (`None`, `True`/`False`,
numbers, strings); containers are approximated by their JSON rendering. -/
def pyStr : Json → String
  | .null => "None"
  | .bool b => if b then "True" else "False"
  | .num q => decimalOfRat q
  | .str s => s
  | .arr xs => "[" ++ pyStrList xs ++ "]"
  | .obj kvs => "\x7b" ++ pyStrObj kvs ++ "\x7d"
def pyStrList : List Json → String
  | [] => ""
  | [x] => pyStr x
  | x :: y :: xs => pyStr x ++ ", " ++ pyStrList (y :: xs)
def pyStrObj : List (String × Json) → String
  | [] => ""
  | [(k, v)] => k ++ ": " ++ pyStr v
  | (k, v) :: m :: kvs => k ++ ": " ++ pyStr v ++ ", " ++ pyStrObj (m :: kvs)
end

/-- JSON string escaping for the serializers (the escapes `json.dumps`
uses on the characters the program emits). -/
def jsonEscapeChar (c : Char) : String :=
  if c = '"' then "\\\""
  else if c = '\\' then "\\\\"
  else if c = '\n' then "\\n"
  else if c = '\t' then "\\t"
  else if c = '\r' then "\\r"
  else String.singleton c

/-- A JSON string literal with quotes, as `json.dumps` renders it. -/
def jsonQuote (s : String) : String :=
  "\"" ++ String.join (s.toList.map jsonEscapeChar) ++ "\""

mutual
/-- JSON serialization with the given item and key separators, modelling
`json.dumps(x, separators=(isep, ksep))` (insertion order). -/
def jserialize (isep ksep : String) : Json → String
  | .null => "null"
  | .bool b => if b then "true" else "false"
  | .num q => decimalOfRat q
  | .str s => jsonQuote s
  | .arr xs => "[" ++ jserializeList isep ksep xs ++ "]"
  | .obj kvs => "\x7b" ++ jserializeObj isep ksep kvs ++ "\x7d"
def jserializeList (isep ksep : String) : List Json → String
  | [] => ""
  | [x] => jserialize isep ksep x
  | x :: y :: xs => jserialize isep ksep x ++ isep ++ jserializeList isep ksep (y :: xs)
def jserializeObj (isep ksep : String) : List (String × Json) → String
  | [] => ""
  | [(k, v)] => jsonQuote k ++ ksep ++ jserialize isep ksep v
  | (k, v) :: m :: kvs =>
    jsonQuote k ++ ksep ++ jserialize isep ksep v ++ isep ++ jserializeObj isep ksep (m :: kvs)
end

/-- Stable insertion of a key/value pair into a key-sorted list (equal
keys keep their original relative order, as Python's stable sort does). -/
def insertByKey (p : String × Json) : List (String × Json) → List (String × Json)
  | [] => [p]
  | q :: qs => if p.1 < q.1 then p :: q :: qs else q :: insertByKey p qs

/-- Stable sort of object members by key. -/
def sortPairsByKey : List (String × Json) → List (String × Json)
  | [] => []
  | p :: ps => insertByKey p (sortPairsByKey ps)

mutual
/-- Recursively sort every object's members by key (the effect of
`json.dumps(..., sort_keys=True)` on the value). -/
def sortKeysJson : Json → Json
  | .null => .null
  | .bool b => .bool b
  | .num q => .num q
  | .str s => .str s
  | .arr xs => .arr (sortKeysList xs)
  | .obj kvs => .obj (sortPairsByKey (sortKeysObj kvs))
def sortKeysList : List Json → List Json
  | [] => []
  | x :: xs => sortKeysJson x :: sortKeysList xs
def sortKeysObj : List (String × Json) → List (String × Json)
  | [] => []
  | (k, v) :: kvs => (k, sortKeysJson v) :: sortKeysObj kvs
end

/-- `json.dumps(x, separators=(",", ":"), sort_keys=True)`: the canonical
serialization used by the webhook helpers. -/
def canonJson (j : Json) : String := jserialize "," ":" (sortKeysJson j)

/-- `json.dumps(x)` with default separators: the serialization the session
loop uses for its output lines. -/
def dumps (j : Json) : String := jserialize ", " ": " j

/-! ## Proxy transport layer (`vap_mcp_proxy.py`) -/

/-- Request headers built by the proxy's `make_request` / `make_v3_request`
/ `make_v3_get_request`: always `Content-Type`, plus `Authorization:
Bearer <key>` only when the configured key is truthy (non-empty). -/
def proxyHeaders (apiKey : String) : List (String × String) :=
  [("Content-Type", "application/json")] ++
    (if apiKey = "" then [] else [("Authorization", "Bearer " ++ apiKey)])

/-- Default headers built by the SDK's
`AsyncVAPEClient._default_headers`: `Authorization` is included
unconditionally, whatever the configured key. -/
def sdkDefaultHeaders (apiKey : String) : List (String × String) :=
  [("Authorization", "Bearer " ++ apiKey),
   ("Content-Type", "application/json"),
   ("User-Agent", "vap-client-python/1.0.0")]

/-- The observable outcome of the HTTP exchange inside `make_v3_request`,
as the `httpx` layer reports it to the surrounding `try`/`except`:
a 2xx response with a JSON body; a 2xx response whose body fails to
parse (so `response.json()` raises, without a `.response` attribute on
the exception); a non-2xx response (so `raise_for_status` raises an
exception carrying `.response`, whose body may or may not parse as
JSON); or a transport-level failure with no response attached. -/
inductive V3Outcome where
  | success (body : Json)
  | successBadJson (excMsg : String)
  | httpStatusError (excMsg : String) (bodyJson : Option Json) (bodyText : String)
  | transportExc (excMsg : String)

/-- `make_v3_request`, given the HTTP outcome: returns the decoded JSON on
success and otherwise a dict with an `error` key, extracting
`detail.message` from a parsed error body when available (`D#509`).
Never raises. -/
def make_v3_request_result (o : V3Outcome) : Json :=
  match o with
  | .success body => body
  | .successBadJson m => .obj [("error", .str m)]
  | .transportExc m => .obj [("error", .str m)]
  | .httpStatusError m bodyJson bodyText =>
    let errDetail : Json :=
      match bodyJson with
      | some (Json.obj kvs) =>
        let detail := objGetD kvs "detail" (.obj [])
        match detail with
        | .obj dkvs => objGetD dkvs "message" (.str (pyStr detail))
        | .str s => .str s
        | _ => .str (pyStr (Json.obj kvs))
      | some _ => .str m
      | none => .str (if bodyText = "" then m else bodyText.take 500)
    .obj [("error", errDetail)]

/-- The remote HTTP API as the handlers see it: the decoded-JSON-or-error
value each transport function hands back for a given endpoint and
payload (`make_request` posts to the MCP base, `make_v3_request` posts
to the V3 base, `make_v3_get_request` issues GETs). -/
structure Transports where
  mcpPost : String → Json → Json
  v3Post : String → Json → Json
  v3Get : String → Json

/-! ## Proxy tool handlers -/

/-- Veo 3.1 price table with audio (`VIDEO_COSTS_WITH_AUDIO`). -/
def videoCostsWithAudio : List (ℚ × ℚ) := [(4, 2.40), (6, 3.60), (8, 4.80)]

/-- Veo 3.1 price table without audio (`VIDEO_COSTS_NO_AUDIO`). -/
def videoCostsNoAudio : List (ℚ × ℚ) := [(4, 1.20), (6, 1.80), (8, 2.40)]

/-- `cost_table.get(duration, 4.80)`: the duration is a number after
validation, and its rational value is looked up as the dict key (Python
float keys equal their integer counterparts). -/
def costGet (table : List (ℚ × ℚ)) (d : Json) : ℚ :=
  match d with
  | .num q => (table.lookup q).getD 4.80
  | _ => 4.80

/-- A plain-text tool result: `{"content": [{"type": "text", "text": s}]}`. -/
def textContent (s : String) : Json :=
  .obj [("content", .arr [.obj [("type", .str "text"), ("text", .str s)]])]

/-- A failed tool result: the text dict with an `isError: true` marker. -/
def toolErrorText (s : String) : Json :=
  .obj [("isError", .bool true),
        ("content", .arr [.obj [("type", .str "text"), ("text", .str s)]])]

/-- The validation error `_handle_generate_video` returns for a missing or
empty prompt. -/
def genVideoPromptError : Json := toolErrorText "Error: prompt is required"

/-- The triple of valid Veo 3.1 durations, as JSON numbers. -/
def validDurations : List Json := [.num 4, .num 6, .num 8]

/-- The success text `_handle_generate_video` builds. -/
def genVideoSuccessText (task_id duration aspect resolution genAudio estCost : Json) : String :=
  "Video generation task created (Veo 3.1)!\n\nTask ID: " ++ pyStr task_id ++
  "\nDuration: " ++ pyStr duration ++ " seconds\nAspect Ratio: " ++ pyStr aspect ++
  "\nResolution: " ++ pyStr resolution ++ "\nAudio: " ++
  (if genAudio.truthy then "Yes" else "No") ++
  "\nEstimated Cost: $" ++ pyStr estCost ++
  "\n\nUse get_task with this task_id to check status and get the video URL when complete."

/-- `_handle_generate_video`.  The first component is the payload posted
to `/v3/tasks`, `none` when no outbound call is made; the second is the
returned dict, or the text of an uncaught Python exception. -/
def handle_generate_video (t : Transports) (arguments : Json) :
    Option Json × Except String Json :=
  match arguments with
  | .obj akvs =>
    let prompt := objGetD akvs "prompt" (.str "")
    let duration := objGetD akvs "duration" (.num 8)
    let aspect := objGetD akvs "aspect_ratio" (.str "16:9")
    let genAudio := objGetD akvs "generate_audio" (.bool true)
    let resolution := objGetD akvs "resolution" (.str "720p")
    let negPrompt := objGetD akvs "negative_prompt" (.str "")
    if !prompt.truthy then (none, .ok genVideoPromptError)
    else
      let duration := if validDurations.any (jeq duration) then duration else .num 8
      let aspect :=
        if [Json.str "16:9", Json.str "9:16"].any (jeq aspect) then aspect else .str "16:9"
      let resolution :=
        if [Json.str "720p", Json.str "1080p"].any (jeq resolution) then resolution
        else .str "720p"
      let params0 : List (String × Json) :=
        [("prompt", prompt), ("duration", duration), ("aspect_ratio", aspect),
         ("generate_audio", genAudio), ("resolution", resolution)]
      let params1 :=
        if negPrompt.truthy then params0 ++ [("negative_prompt", negPrompt)] else params0
      let payload := Json.obj [("type", .str "video"), ("params", .obj params1)]
      let response := t.v3Post "/v3/tasks" payload
      (some payload,
        match pyContains response "error" with
        | .error e => .error e
        | .ok true =>
          match pyIndex response "error" with
          | .error e => .error e
          | .ok ev => .ok (toolErrorText ("Error: " ++ pyStr ev))
        | .ok false =>
          match response with
          | .obj rkvs =>
            let task_id := objGetD rkvs "task_id" (.str "unknown")
            let table := if genAudio.truthy then videoCostsWithAudio else videoCostsNoAudio
            let estCost := objGetD rkvs "estimated_cost" (.num (costGet table duration))
            .ok (textContent
              (genVideoSuccessText task_id duration aspect resolution genAudio estCost))
          | _ => .error "AttributeError: get")
  | _ => (none, .error "AttributeError: get")

/-- The fixed pricing footer of the cost-estimate text. -/
def estimateFooter : String :=
  "\n\nPricing with audio:\n- 4 seconds: $2.40\n- 6 seconds: $3.60\n- 8 seconds: $4.80" ++
  "\n\nPricing without audio:\n- 4 seconds: $1.20\n- 6 seconds: $1.80\n- 8 seconds: $2.40"

/-- `_handle_estimate_video_cost`: a purely local computation with the
same duration validation rule as video generation. -/
def handle_estimate_video_cost (arguments : Json) : Except String Json :=
  match arguments with
  | .obj akvs =>
    let duration := objGetD akvs "duration" (.num 8)
    let genAudio := objGetD akvs "generate_audio" (.bool true)
    let duration := if validDurations.any (jeq duration) then duration else .num 8
    let table := if genAudio.truthy then videoCostsWithAudio else videoCostsNoAudio
    let cost := costGet table duration
    .ok (textContent
      ("Video Generation Cost Estimate (Veo 3.1):\n\nDuration: " ++ pyStr duration ++
       " seconds\nAudio: " ++ (if genAudio.truthy then "Yes" else "No") ++
       "\nCost: $" ++ format2f cost ++ estimateFooter))
  | _ => .error "AttributeError: get"

/-- The summary lines `_handle_get_task` builds from the fields extracted
out of the task response (its `lines` list before `"\n".join`). -/
def buildTaskLines (task_id task_type status estCost actCost errMsg
    audio_url video_url image_url : Json) : List String :=
  let lines0 := ["Task: " ++ pyStr task_id, "Type: " ++ pyStr task_type,
                 "Status: " ++ pyStr status, "Estimated Cost: $" ++ pyStr estCost]
  let lines1 :=
    if actCost.truthy && !(jeq actCost (.str "N/A")) then
      lines0 ++ ["Actual Cost: $" ++ pyStr actCost]
    else lines0
  if jeq status (.str "completed") then
    if audio_url.truthy then lines1 ++ ["\n🎵 Audio URL: " ++ pyStr audio_url]
    else if video_url.truthy then lines1 ++ ["\n🎬 Video URL: " ++ pyStr video_url]
    else if image_url.truthy then lines1 ++ ["\n🖼️ Image URL: " ++ pyStr image_url]
    else lines1
  else if jeq status (.str "failed") && errMsg.truthy then
    lines1 ++ ["\n❌ Error: " ++ pyStr errMsg]
  else if [Json.str "pending", Json.str "queued", Json.str "executing"].any (jeq status) then
    lines1 ++ ["\n⏳ Task is still " ++ pyStr status ++ ". Check again shortly."]
  else lines1

/-- Field extraction and summary construction of `_handle_get_task` on a
task response that does not carry the transport error sentinel: the
status, costs and media URLs are read out (media precedence: top-level
`video_url`/`image_url` with `output_url` fallback, `audio_url` from
`items[0]`), and the summary lines are built. `.error` models an
uncaught Python exception (a non-dict where `.get` is called). -/
def taskLines (task_id response : Json) : Except String (List String) :=
  match response with
  | .obj rkvs =>
    let status := objGetD rkvs "status" (.str "unknown")
    let task_type := objGetD rkvs "type" (.str "unknown")
    let estCost := objGetD rkvs "estimated_cost" (.str "N/A")
    let actCost := objGetD rkvs "actual_cost" (.str "N/A")
    let errMsg := objGetD rkvs "error_message" .null
    match pyOr (objGetD rkvs "result" (.obj [])) (.obj []) with
    | .obj okvs =>
      let ou := objGetD okvs "output_url" .null
      let video_url := pyOr (objGetD okvs "video_url" .null) ou
      let image_url := pyOr (objGetD okvs "image_url" .null) ou
      match objGetD okvs "items" (.arr []) with
      | .arr (first :: _) =>
        match first with
        | .obj fkvs =>
          let audio_url := objGetD fkvs "audio_url" .null
          let image_url :=
            if !image_url.truthy then objGetD fkvs "image_url" .null else image_url
          .ok (buildTaskLines task_id task_type status estCost actCost errMsg
            audio_url video_url image_url)
        | _ => .error "AttributeError: get"
      | _ =>
        .ok (buildTaskLines task_id task_type status estCost actCost errMsg
          .null video_url image_url)
    | _ => .error "AttributeError: get"
  | _ => .error "AttributeError: get"

/-- `_handle_get_task`: validates `task_id`, fetches the task over the
GET transport, converts a transport error sentinel into an
`isError: true` result, and otherwise renders the joined summary. -/
def handle_get_task (t : Transports) (arguments : Json) : Except String Json :=
  match arguments with
  | .obj akvs =>
    let task_id := objGetD akvs "task_id" (.str "")
    if !task_id.truthy then .ok (toolErrorText "Error: task_id is required")
    else
      let response := t.v3Get ("/v3/tasks/" ++ pyStr task_id)
      match pyContains response "error" with
      | .error e => .error e
      | .ok true =>
        (pyIndex response "error").map (fun ev => toolErrorText ("Error: " ++ pyStr ev))
      | .ok false =>
        (taskLines task_id response).map (fun ls => textContent (String.intercalate "\n" ls))
  | _ => .error "AttributeError: get"

/-! ## Proxy method handlers and JSON-RPC session loop -/

/-- `handle_initialize`: forwards the three negotiated fields to the MCP
`/initialize` endpoint. -/
def handle_initialize (t : Transports) (params : Json) : Except String Json := do
  let pv ← jGet? params "protocolVersion" .null
  let caps ← jGet? params "capabilities" (.obj [])
  let ci ← jGet? params "clientInfo" (.obj [])
  pure (t.mcpPost "/initialize"
    (.obj [("protocolVersion", pv), ("capabilities", caps), ("clientInfo", ci)]))

/-- `handle_tools_list`. -/
def handle_tools_list (t : Transports) (_params : Json) : Except String Json :=
  .ok (t.mcpPost "/tools/list" (.obj []))

/-- `handle_resources_list`. -/
def handle_resources_list (t : Transports) (_params : Json) : Except String Json :=
  .ok (t.mcpPost "/resources/list" (.obj []))

/-- `handle_resources_read`. -/
def handle_resources_read (t : Transports) (params : Json) : Except String Json := do
  let uri ← jGet? params "uri" .null
  pure (t.mcpPost "/resources/read" (.obj [("params", .obj [("uri", uri)])]))

/-- `handle_tools_call`: the three video/task tools get specialized local
handling; every other tool name is forwarded verbatim to the MCP
`/tools/call` endpoint. -/
def handle_tools_call (t : Transports) (params : Json) : Except String Json := do
  let name ← jGet? params "name" (.str "")
  let arguments ← jGet? params "arguments" (.obj [])
  if jeq name (.str "generate_video") then (handle_generate_video t arguments).2
  else if jeq name (.str "estimate_video_cost") then handle_estimate_video_cost arguments
  else if jeq name (.str "get_task") then handle_get_task t arguments
  else pure (t.mcpPost "/tools/call" (.obj [("name", name), ("arguments", arguments)]))

/-- The keys of the `METHOD_HANDLERS` routing table. -/
def knownMethods : List String :=
  ["initialize", "tools/list", "tools/call", "resources/list", "resources/read"]

/-- The `METHOD_HANDLERS` dispatch, for method names in `knownMethods`. -/
def proxyRun (t : Transports) (m : String) (params : Json) : Except String Json :=
  if m = "initialize" then handle_initialize t params
  else if m = "tools/list" then handle_tools_list t params
  else if m = "tools/call" then handle_tools_call t params
  else if m = "resources/list" then handle_resources_list t params
  else if m = "resources/read" then handle_resources_read t params
  else .error "unreachable: proxyRun is only invoked on known methods"

/-- `create_response`. -/
def create_response (id result : Json) : Json :=
  .obj [("jsonrpc", .str "2.0"), ("id", id), ("result", result)]

/-- `create_error`. -/
def create_error (id : Json) (code : Int) (message : String) : Json :=
  .obj [("jsonrpc", .str "2.0"), ("id", id),
        ("error", .obj [("code", .num code), ("message", .str message)])]

/-- The `"error" in result and isinstance(result["error"], str)` test of
`process_request`, running inside its `try`: `some s` when the result
carries a string-valued `error` key, `none` when it does not, `.error`
when the test itself raises (a list element hit or a substring hit makes
the subsequent non-dict indexing raise `TypeError`; `in` on a scalar
raises outright). -/
def errKeyCheck : Json → Except String (Option String)
  | .obj kvs =>
    match kvs.lookup "error" with
    | some (Json.str s) => .ok (some s)
    | some _ => .ok none
    | none => .ok none
  | .arr xs =>
    if xs.any (fun x => jeq x (.str "error")) then .error "TypeError: indices must be integers"
    else .ok none
  | .str s =>
    if strContainsSub s "error" then .error "TypeError: indices must be integers"
    else .ok none
  | _ => .error "TypeError: argument of type is not iterable"

/-- `process_request`, parameterized by the effect of the method handlers
(`runH m params` is what `METHOD_HANDLERS[m](params)` returns, or the
text of the exception it raises).  `.ok none` is a notification (no
response), `.ok (some r)` is the single response emitted for a request,
and `.error` models an exception escaping `process_request` itself
(which the main loop does not catch). -/
def process_request (runH : String → Json → Except String Json) (request : Json) :
    Except String (Option Json) :=
  match request with
  | .obj kvs =>
    let request_id := objGetD kvs "id" .null
    let methodJ := objGetD kvs "method" (.str "")
    let params := pyOr (objGetD kvs "params" .null) (.obj [])
    if jeq request_id .null then
      match methodJ with
      | .str _ => .ok none
      | _ => .error "AttributeError: startswith"
    else
      match methodJ with
      | .arr _ => .error "TypeError: unhashable type"
      | .obj _ => .error "TypeError: unhashable type"
      | .str m =>
        if m ∈ knownMethods then
          match runH m params with
          | .error e => .ok (some (create_error request_id (-32000) e))
          | .ok result =>
            match errKeyCheck result with
            | .error e => .ok (some (create_error request_id (-32000) e))
            | .ok (some s) => .ok (some (create_error request_id (-32000) s))
            | .ok none => .ok (some (create_response request_id result))
        else .ok (some (create_error request_id (-32601) ("Method not found: " ++ m)))
      | other => .ok (some (create_error request_id (-32601) ("Method not found: " ++ pyStr other)))
  | _ => .error "AttributeError: get"

/-- The main stdio loop over a list of input lines, parameterized by the
JSON parser (`parse l = none` models a `json.JSONDecodeError` from
`json.loads`) and the method handlers.  Returns the emitted output lines
and whether the loop died on an uncaught exception (in which case the
remaining input is not processed). -/
def mainLoop (parse : String → Option Json) (runH : String → Json → Except String Json) :
    List String → List String × Bool
  | [] => ([], false)
  | line :: rest =>
    let l := pyStrip line
    if l = "" then mainLoop parse runH rest
    else
      match parse l with
      | none =>
        let r := mainLoop parse runH rest
        (dumps (create_error .null (-32700) "Parse error") :: r.1, r.2)
      | some request =>
        match process_request runH request with
        | .error _ => ([], true)
        | .ok none => mainLoop parse runH rest
        | .ok (some response) =>
          let r := mainLoop parse runH rest
          (dumps response :: r.1, r.2)

/-! ## SDK async client (`async_client.py`): classification and retry -/

/-- `max_retries: int = 3` in `AsyncVAPEClient.__init__`. -/
def defaultMaxRetries : Nat := 3

/-- The typed failures of the SDK's exception taxonomy
(`exceptions.py`), as `_request` can observe them.  The message (and the
auxiliary fields of the richer classes) hold whatever JSON value the
error body supplied; timeout and connection failures are built by
`_request` itself from the `httpx` exception text. -/
inductive VAPEErr where
  | auth (msg : Json)
  | insufficientBalance (msg balance required : Json)
  | rateLimit (msg retry_after limit_type : Json)
  | validation (msg errors : Json)
  | server (status : Nat) (msg : Json)
  | connection (msg : String)
  | timedOut (msg : String)
  | generic (status : Nat) (msg : Json)

/-- What a single HTTP attempt inside `_request` yields: a response with
a status code and the `data` value `_handle_response` computes from it
(the parsed body, or `{"error": response.text}` when parsing fails), or
an `httpx` timeout / connection exception. -/
inductive HttpAttempt where
  | response (status : Nat) (data : Json)
  | timeoutExc (msg : String)
  | connectExc (msg : String)

/-- A failure escaping `_handle_response`: a classified typed error, or
an unexpected Python exception (`.get` on a non-dict body), which no
`except` clause of `_request` matches. -/
inductive RespExc where
  | classified (e : VAPEErr)
  | unexpected (msg : String)

/-- `AsyncVAPEClient._handle_response`: status 200 returns the data;
401/402/429/400 raise the matching typed error, any 5xx raises
`VAPEServerError`, and every other status raises the generic
`VAPEError`, each carrying the body's `error` text when present. -/
def handle_response (status : Nat) (data : Json) : Except RespExc Json :=
  if status = 200 then .ok data
  else
    match data with
    | .obj kvs =>
      if status = 401 then
        .error (.classified (.auth (objGetD kvs "error" (.str "Authentication failed"))))
      else if status = 402 then
        .error (.classified (.insufficientBalance
          (objGetD kvs "error" (.str "Insufficient balance"))
          (objGetD kvs "balance" .null) (objGetD kvs "required" .null)))
      else if status = 429 then
        .error (.classified (.rateLimit
          (objGetD kvs "error" (.str "Rate limit exceeded"))
          (objGetD kvs "retry_after" .null) (objGetD kvs "limit_type" .null)))
      else if status = 400 then
        .error (.classified (.validation
          (objGetD kvs "error" (.str "Validation error")) (objGetD kvs "errors" .null)))
      else if 500 ≤ status then
        .error (.classified (.server status (objGetD kvs "error" (.str "Server error"))))
      else
        .error (.classified (.generic status (objGetD kvs "error"
          (.str ("Request failed with status " ++ toString status)))))
    | _ => .error (.unexpected "AttributeError: get")

/-- One loop iteration's outcome: the HTTP attempt pushed through
`_handle_response`, with `httpx` timeout and connection exceptions
wrapped into the SDK's typed errors exactly as the `except` clauses of
`_request` wrap them. -/
def attemptStep (a : HttpAttempt) : Except RespExc Json :=
  match a with
  | .response status data => handle_response status data
  | .timeoutExc m => .error (.classified (.timedOut ("Request timed out: " ++ m)))
  | .connectExc m => .error (.classified (.connection ("Connection failed: " ++ m)))

/-- Which classified failures the `except` clauses of `_request` retry:
server errors, timeouts and connection failures are retried;
authentication, insufficient-balance, validation, rate-limit and the
generic catch-all are re-raised immediately. -/
def retryPolicy : VAPEErr → Bool
  | .server _ _ => true
  | .timedOut _ => true
  | .connection _ => true
  | _ => false

/-- The result of `_request` as a whole: the decoded data, a typed error
raised to the caller, or an unexpected Python exception (including the
degenerate `raise None` when `max_retries` is zero). -/
inductive ReqOutcome where
  | ok (j : Json)
  | raised (e : VAPEErr)
  | pyRaise (msg : String)

/-- The `for attempt in range(max_retries)` loop of `_request`:
`remaining` counts the iterations left, `attempt` is the current index
(attempt `i` performs `att i`), and `lastError` is the `last_error`
variable.  A non-retryable classified failure is raised at once; a
retryable one is recorded and the loop moves on; on exhaustion
`last_error` is raised. -/
def requestLoop (att : Nat → HttpAttempt) (attempt : Nat) (remaining : Nat)
    (lastError : Option VAPEErr) : ReqOutcome :=
  match remaining with
  | 0 =>
    match lastError with
    | some e => .raised e
    | none => .pyRaise "TypeError: exceptions must derive from BaseException"
  | r + 1 =>
    match attemptStep (att attempt) with
    | .ok j => .ok j
    | .error (.unexpected m) => .pyRaise m
    | .error (.classified e) =>
      if retryPolicy e then requestLoop att (attempt + 1) r (some e)
      else .raised e

/-- `AsyncVAPEClient._request`, given the per-attempt HTTP outcomes. -/
def clientRequest (maxRetries : Nat) (att : Nat → HttpAttempt) : ReqOutcome :=
  requestLoop att 0 maxRetries none

/-! ## Webhook signature helpers (`webhooks.py`) -/

/-- `max_age_seconds: int = 300` in `verify_webhook_signature`. -/
def webhookDefaultMaxAge : Int := 300

/-- `generate_webhook_signature`, over an abstract HMAC-SHA256 primitive
`hmacHex key message` (Python's `hmac.new(...).hexdigest()`, an external
collaborator): canonicalizes the payload with sorted-keys/no-space JSON,
signs `"{timestamp}.{payload_json}"`, and returns the
`(signature, timestamp)` pair. -/
def generate_webhook_signature (hmacHex : String → String → String)
    (payload : Json) (secret : String) (timestamp : Int) : String × Int :=
  let payload_json := canonJson payload
  let signed_payload := toString timestamp ++ "." ++ payload_json
  (hmacHex secret signed_payload, timestamp)

/-- `verify_webhook_signature`, over the same abstract HMAC primitive and
an explicit current time: rejects when the timestamp's absolute age
exceeds `maxAgeSeconds`, otherwise recomputes the signature over the
canonicalized payload and compares (`hmac.compare_digest` is a
constant-time equality). -/
def verify_webhook_signature (hmacHex : String → String → String) (currentTime : Int)
    (payload : Json) (signature : String) (timestamp : Int) (secret : String)
    (maxAgeSeconds : Int) : Bool :=
  if |currentTime - timestamp| > maxAgeSeconds then false
  else
    let payload_json := canonJson payload
    let signed_payload := toString timestamp ++ "." ++ payload_json
    let expected_signature := hmacHex secret signed_payload
    signature == expected_signature

/-! ## Observation helpers for the theorems -/

/-- Recognizes the media URL lines of a task summary: each begins with a
newline and its medium's emoji, and no other summary line begins with a
newline followed by one of these three emoji. -/
def isMediaLine (s : String) : Bool :=
  "\n🎵".toList.isPrefixOf s.toList || "\n🎬".toList.isPrefixOf s.toList ||
    "\n🖼".toList.isPrefixOf s.toList

/-- Recognizes the `Actual Cost` line of a task summary. -/
def isActualCostLine (s : String) : Bool :=
  "Actual Cost: ".toList.isPrefixOf s.toList

/-- Reads one field of the task-creation params out of the payload a
`handle_generate_video` run sent to `/v3/tasks` (`none` when no call
was made or the payload lacks the field). -/
def sentParamField (r : Option Json × Except String Json) (field : String) : Option Json :=
  match r.1 with
  | some (Json.obj pkvs) =>
    match pkvs.lookup "params" with
    | some (Json.obj qkvs) => qkvs.lookup field
    | _ => none
  | _ => none

/-- A transport whose every response is JSON `null` (for witnesses). -/
def tNull : Transports := ⟨fun _ _ => .null, fun _ _ => .null, fun _ => .null⟩

/-- A parser that rejects every line (for witnesses). -/
def parseNone : String → Option Json := fun _ => none

/-- A handler runner that returns an empty dict (for witnesses). -/
def runEmpty : String → Json → Except String Json := fun _ _ => .ok (.obj [])

/-! ## Shared lemmas: task summary line classification -/

theorem isMediaLine_task (x : String) : isMediaLine ("Task: " ++ x) = false := by
  simp [isMediaLine, String.toList, String.data_append, List.isPrefixOf]

theorem isMediaLine_type (x : String) : isMediaLine ("Type: " ++ x) = false := by
  simp [isMediaLine, String.toList, String.data_append, List.isPrefixOf]

theorem isMediaLine_status (x : String) : isMediaLine ("Status: " ++ x) = false := by
  simp [isMediaLine, String.toList, String.data_append, List.isPrefixOf]

theorem isMediaLine_est (x : String) : isMediaLine ("Estimated Cost: $" ++ x) = false := by
  simp [isMediaLine, String.toList, String.data_append, List.isPrefixOf]

theorem isMediaLine_act (x : String) : isMediaLine ("Actual Cost: $" ++ x) = false := by
  simp [isMediaLine, String.toList, String.data_append, List.isPrefixOf]

theorem isMediaLine_audio (x : String) : isMediaLine ("\n🎵 Audio URL: " ++ x) = true := by
  simp [isMediaLine, String.toList, String.data_append, List.isPrefixOf]

theorem isMediaLine_video (x : String) : isMediaLine ("\n🎬 Video URL: " ++ x) = true := by
  simp [isMediaLine, String.toList, String.data_append, List.isPrefixOf]

theorem isMediaLine_image (x : String) : isMediaLine ("\n🖼️ Image URL: " ++ x) = true := by
  simp [isMediaLine, String.toList, String.data_append, List.isPrefixOf]

theorem isMediaLine_err (x : String) : isMediaLine ("\n❌ Error: " ++ x) = false := by
  simp [isMediaLine, String.toList, String.data_append, List.isPrefixOf]

theorem isMediaLine_adv (x y : String) :
    isMediaLine ("\n⏳ Task is still " ++ x ++ y) = false := by
  simp [isMediaLine, String.toList, String.data_append, List.isPrefixOf]

theorem isActualCostLine_task (x : String) : isActualCostLine ("Task: " ++ x) = false := by
  simp [isActualCostLine, String.toList, String.data_append, List.isPrefixOf]

theorem isActualCostLine_type (x : String) : isActualCostLine ("Type: " ++ x) = false := by
  simp [isActualCostLine, String.toList, String.data_append, List.isPrefixOf]

theorem isActualCostLine_status (x : String) :
    isActualCostLine ("Status: " ++ x) = false := by
  simp [isActualCostLine, String.toList, String.data_append, List.isPrefixOf]

theorem isActualCostLine_est (x : String) :
    isActualCostLine ("Estimated Cost: $" ++ x) = false := by
  simp [isActualCostLine, String.toList, String.data_append, List.isPrefixOf]

theorem isActualCostLine_act (x : String) :
    isActualCostLine ("Actual Cost: $" ++ x) = true := by
  simp [isActualCostLine, String.toList, String.data_append, List.isPrefixOf]

theorem isActualCostLine_audio (x : String) :
    isActualCostLine ("\n🎵 Audio URL: " ++ x) = false := by
  simp [isActualCostLine, String.toList, String.data_append, List.isPrefixOf]

theorem isActualCostLine_video (x : String) :
    isActualCostLine ("\n🎬 Video URL: " ++ x) = false := by
  simp [isActualCostLine, String.toList, String.data_append, List.isPrefixOf]

theorem isActualCostLine_image (x : String) :
    isActualCostLine ("\n🖼️ Image URL: " ++ x) = false := by
  simp [isActualCostLine, String.toList, String.data_append, List.isPrefixOf]

theorem isActualCostLine_err (x : String) :
    isActualCostLine ("\n❌ Error: " ++ x) = false := by
  simp [isActualCostLine, String.toList, String.data_append, List.isPrefixOf]

theorem isActualCostLine_adv (x y : String) :
    isActualCostLine ("\n⏳ Task is still " ++ x ++ y) = false := by
  simp [isActualCostLine, String.toList, String.data_append, List.isPrefixOf]

/-- Every task summary carries at most one media URL line. -/
theorem countP_media_buildTaskLines (tid tty st ec ac em au vu iu : Json) :
    (buildTaskLines tid tty st ec ac em au vu iu).countP isMediaLine ≤ 1 := by
  unfold buildTaskLines
  split <;> split <;> (try split) <;> (try split) <;> (try split) <;>
    simp [List.countP_cons, List.countP_nil, isMediaLine_task, isMediaLine_type,
      isMediaLine_status, isMediaLine_est, isMediaLine_act, isMediaLine_audio,
      isMediaLine_video, isMediaLine_image, isMediaLine_err, isMediaLine_adv]

/-- On a completed task the single media line follows the audio → video →
image precedence of the extracted URLs. -/
theorem filter_media_buildTaskLines (tid tty ec ac em au vu iu : Json) :
    (buildTaskLines tid tty (.str "completed") ec ac em au vu iu).filter isMediaLine =
      (if au.truthy then ["\n🎵 Audio URL: " ++ pyStr au]
       else if vu.truthy then ["\n🎬 Video URL: " ++ pyStr vu]
       else if iu.truthy then ["\n🖼️ Image URL: " ++ pyStr iu]
       else []) := by
  unfold buildTaskLines
  split <;> (try split) <;> (try split) <;> (try split) <;> (try split) <;>
    simp_all [jeq, List.filter_cons, isMediaLine_task, isMediaLine_type,
      isMediaLine_status, isMediaLine_est, isMediaLine_act, isMediaLine_audio,
      isMediaLine_video, isMediaLine_image]

/-- The `Actual Cost` line is present exactly when the extracted
`actual_cost` is truthy and differs from the `"N/A"` sentinel. -/
theorem any_actual_buildTaskLines (tid tty st ec ac em au vu iu : Json) :
    (buildTaskLines tid tty st ec ac em au vu iu).any isActualCostLine =
      (ac.truthy && !(jeq ac (.str "N/A"))) := by
  unfold buildTaskLines
  split <;> split <;> (try split) <;> (try split) <;> (try split) <;>
    simp_all [List.any_cons, isActualCostLine_task, isActualCostLine_type,
      isActualCostLine_status, isActualCostLine_est, isActualCostLine_act,
      isActualCostLine_audio, isActualCostLine_video, isActualCostLine_image,
      isActualCostLine_err, isActualCostLine_adv]

/-- Inversion for a successful summary construction: the response was a
dict and the lines are `buildTaskLines` on the fields extracted from it. -/
theorem taskLines_ok_inv {tid resp : Json} {ls : List String}
    (h : taskLines tid resp = .ok ls) :
    ∃ rkvs au vu iu, resp = .obj rkvs ∧
      ls = buildTaskLines tid (objGetD rkvs "type" (.str "unknown"))
        (objGetD rkvs "status" (.str "unknown"))
        (objGetD rkvs "estimated_cost" (.str "N/A"))
        (objGetD rkvs "actual_cost" (.str "N/A"))
        (objGetD rkvs "error_message" .null) au vu iu := by
  cases resp <;> simp [taskLines] at h
  case obj rkvs =>
    refine ⟨rkvs, ?_⟩
    cases hr : pyOr (objGetD rkvs "result" (.obj [])) (.obj []) <;>
      rw [hr] at h <;> try simp at h
    case obj okvs =>
      cases hi : objGetD okvs "items" (.arr []) <;> rw [hi] at h <;> try simp at h
      case arr xs =>
        cases xs with
        | nil => simp at h; exact ⟨_, _, _, rfl, h.symm⟩
        | cons first rest =>
          cases first <;> simp at h
          case obj fkvs => exact ⟨_, _, _, rfl, h.symm⟩
      all_goals exact ⟨_, _, _, rfl, h.symm⟩

/-! ## Shared lemmas: the retry loop -/

/-- Exhaustion: when every remaining attempt fails with a retryable
classified error, the loop raises the error of the last attempt. -/
theorem requestLoop_exhaust (att : Nat → HttpAttempt) (es : Nat → VAPEErr) :
    ∀ (r a : Nat) (le : Option VAPEErr), 1 ≤ r →
      (∀ i, i < r → attemptStep (att (a + i)) = .error (.classified (es (a + i)))
        ∧ retryPolicy (es (a + i)) = true) →
      requestLoop att a r le = .raised (es (a + r - 1)) := by
  intro r
  induction r with
  | zero => intro a le h1; omega
  | succ r ih =>
    intro a le _ hall
    have h0 := hall 0 (by omega)
    simp only [Nat.add_zero] at h0
    unfold requestLoop
    rw [h0.1]
    simp only [h0.2, if_true]
    cases r with
    | zero => unfold requestLoop; simp
    | succ r2 =>
      have step := ih (a + 1) (some (es a)) (by omega) (fun i hi => by
        have h := hall (i + 1) (by omega)
        rw [show a + 1 + i = a + (i + 1) from by omega]
        exact h)
      rw [show a + (r2 + 1 + 1) - 1 = a + 1 + (r2 + 1) - 1 from by omega]
      exact step

/-- Success after retries: when the first `k` attempts fail retryably and
attempt `k` succeeds within the budget, the loop returns its value. -/
theorem requestLoop_success (att : Nat → HttpAttempt) (es : Nat → VAPEErr) (j : Json) :
    ∀ (k r a : Nat) (le : Option VAPEErr), k < r →
      (∀ i, i < k → attemptStep (att (a + i)) = .error (.classified (es (a + i)))
        ∧ retryPolicy (es (a + i)) = true) →
      attemptStep (att (a + k)) = .ok j →
      requestLoop att a r le = .ok j := by
  intro k
  induction k with
  | zero =>
    intro r a le hk _ hok
    cases r with
    | zero => omega
    | succ r2 =>
      unfold requestLoop
      simp only [Nat.add_zero] at hok
      rw [hok]
  | succ k ih =>
    intro r a le hk hall hok
    cases r with
    | zero => omega
    | succ r2 =>
      have h0 := hall 0 (by omega)
      simp only [Nat.add_zero] at h0
      unfold requestLoop
      rw [h0.1]
      simp only [h0.2, if_true]
      exact ih r2 (a + 1) (some (es a)) (by omega)
        (fun i hi => by
          have h := hall (i + 1) (by omega)
          rw [show a + 1 + i = a + (i + 1) from by omega]
          exact h)
        (by rw [show a + 1 + k = a + (k + 1) from by omega]; exact hok)

/-! ## Claim theorems -/

/-- C2: the SDK request function's retry policy.  (i) The default attempt
budget is 3.  (ii) A classified non-retryable failure on the first
attempt is raised immediately, whatever the later attempts would have
returned.  (iii) Status 401 classifies as an authentication failure, 402
as insufficient balance, 429 as rate limit, 400 as validation (all
non-retryable), any status >= 500 as a server failure (retryable), and
timeouts and connection failures are retryable.  (iv) When every attempt
of the budget fails with a retryable classified failure, the failure
observed on the last attempt itself is raised, not a generic message.
(v) A success within the budget after retryable failures returns its
value. -/
theorem c2_retry_policy :
    defaultMaxRetries = 3
  ∧ (∀ (att : Nat → HttpAttempt) (n : Nat) (e : VAPEErr), 1 ≤ n →
      attemptStep (att 0) = .error (.classified e) → retryPolicy e = false →
      clientRequest n att = .raised e)
  ∧ (∀ kvs, ∃ m, handle_response 401 (.obj kvs) = .error (.classified (.auth m))
      ∧ retryPolicy (.auth m) = false)
  ∧ (∀ kvs, ∃ m b req, handle_response 402 (.obj kvs)
        = .error (.classified (.insufficientBalance m b req))
      ∧ retryPolicy (.insufficientBalance m b req) = false)
  ∧ (∀ kvs, ∃ m ra lt, handle_response 429 (.obj kvs)
        = .error (.classified (.rateLimit m ra lt))
      ∧ retryPolicy (.rateLimit m ra lt) = false)
  ∧ (∀ kvs, ∃ m er, handle_response 400 (.obj kvs) = .error (.classified (.validation m er))
      ∧ retryPolicy (.validation m er) = false)
  ∧ (∀ st kvs, 500 ≤ st → ∃ m, handle_response st (.obj kvs)
        = .error (.classified (.server st m)) ∧ retryPolicy (.server st m) = true)
  ∧ (∀ m, retryPolicy (.timedOut m) = true ∧ retryPolicy (.connection m) = true)
  ∧ (∀ (att : Nat → HttpAttempt) (es : Nat → VAPEErr) (n : Nat), 1 ≤ n →
      (∀ i, i < n → attemptStep (att i) = .error (.classified (es i))
        ∧ retryPolicy (es i) = true) →
      clientRequest n att = .raised (es (n - 1)))
  ∧ (∀ (att : Nat → HttpAttempt) (es : Nat → VAPEErr) (j : Json) (k n : Nat), k < n →
      (∀ i, i < k → attemptStep (att i) = .error (.classified (es i))
        ∧ retryPolicy (es i) = true) →
      attemptStep (att k) = .ok j →
      clientRequest n att = .ok j) := by
  refine ⟨rfl, ?_, ?_, ?_, ?_, ?_, ?_, ?_, ?_, ?_⟩
  · intro att n e hn hstep hpol
    cases n with
    | zero => omega
    | succ n2 =>
      unfold clientRequest requestLoop
      rw [hstep]
      simp [hpol]
  · intro kvs
    exact ⟨objGetD kvs "error" (.str "Authentication failed"), by simp [handle_response], rfl⟩
  · intro kvs
    exact ⟨objGetD kvs "error" (.str "Insufficient balance"), objGetD kvs "balance" .null,
      objGetD kvs "required" .null, by simp [handle_response], rfl⟩
  · intro kvs
    exact ⟨objGetD kvs "error" (.str "Rate limit exceeded"), objGetD kvs "retry_after" .null,
      objGetD kvs "limit_type" .null, by simp [handle_response], rfl⟩
  · intro kvs
    exact ⟨objGetD kvs "error" (.str "Validation error"), objGetD kvs "errors" .null,
      by simp [handle_response], rfl⟩
  · intro st kvs hst
    refine ⟨objGetD kvs "error" (.str "Server error"), ?_, rfl⟩
    have h200 : st ≠ 200 := by omega
    have h401 : st ≠ 401 := by omega
    have h402 : st ≠ 402 := by omega
    have h429 : st ≠ 429 := by omega
    have h400 : st ≠ 400 := by omega
    simp [handle_response, h200, h401, h402, h429, h400, hst]
  · intro m; exact ⟨rfl, rfl⟩
  · intro att es n hn hall
    have h := requestLoop_exhaust att es n 0 none hn (fun i hi => by
      simpa using hall i hi)
    simpa using h
  · intro att es j k n hk hall hok
    exact requestLoop_success att es j k n 0 none hk (fun i hi => by
      simpa using hall i hi) (by simpa using hok)

/-- C2 witness: three consecutive 500 responses with the default budget
of three attempts raise the final server failure itself. -/
theorem c2_retry_policy_witness :
    clientRequest defaultMaxRetries (fun _ => .response 500 (.obj []))
      = .raised (.server 500 (.str "Server error")) := by
  have h := c2_retry_policy.2.2.2.2.2.2.2.2.1
    (fun _ => .response 500 (.obj []))
    (fun _ => .server 500 (.str "Server error")) 3 (by omega)
    (fun i hi => ⟨rfl, rfl⟩)
  simpa [defaultMaxRetries] using h

/-- C9: webhook signature round trip.  For every HMAC primitive, payload,
secret, signing timestamp, verification time and age window, verifying
the generated signature succeeds exactly when the timestamp's absolute
age at verification time is within the window — in particular it is true
within the window and false once the age exceeds `max_age_seconds`. -/
theorem c9_webhook_roundtrip (hmacHex : String → String → String) (payload : Json)
    (secret : String) (ts now maxAge : Int) :
    verify_webhook_signature hmacHex now payload
        (generate_webhook_signature hmacHex payload secret ts).1
        (generate_webhook_signature hmacHex payload secret ts).2
        secret maxAge
      = decide (|now - ts| ≤ maxAge) := by
  unfold verify_webhook_signature generate_webhook_signature
  by_cases h : |now - ts| > maxAge
  · simp [h, not_le.mpr h]
  · simp [h, not_lt.mp h]

/-- C3 (amended): both transport layers always send
`Content-Type: application/json`; the proxy's `make_request` family adds
`Authorization: Bearer <key>` exactly when the configured key is
non-empty, but the SDK's `_default_headers` adds the `Authorization`
header unconditionally, even for an empty key. -/
theorem c3_headers (key : String) :
    List.lookup "Content-Type" (proxyHeaders key) = some "application/json"
  ∧ ((("Authorization", "Bearer " ++ key) ∈ proxyHeaders key) ↔ key ≠ "")
  ∧ List.lookup "Content-Type" (sdkDefaultHeaders key) = some "application/json"
  ∧ ("Authorization", "Bearer " ++ key) ∈ sdkDefaultHeaders key := by
  by_cases h : key = "" <;>
    simp [proxyHeaders, sdkDefaultHeaders, h, List.lookup]

/-- C3 counterexample: with an empty configured key, the SDK's default
headers still contain an `Authorization` header (`"Bearer "`), refuting
the claim that the `Authorization` header is sent only when a non-empty
key is configured. -/
theorem c3_headers_counterexample :
    List.lookup "Authorization" (sdkDefaultHeaders "") = some "Bearer " := by rfl

/-- C4: a non-blank input line that fails to parse as JSON makes the
session loop emit exactly one response line — the serialized `-32700`
parse error with `id = null` — and then continue with the remaining
lines exactly as it would have processed them alone; in particular the
loop never terminates on malformed input. -/
theorem c4_parse_error_line (parse : String → Option Json)
    (runH : String → Json → Except String Json) (line : String) (rest : List String)
    (hne : pyStrip line ≠ "") (hparse : parse (pyStrip line) = none) :
    mainLoop parse runH (line :: rest)
      = (dumps (create_error .null (-32700) "Parse error")
          :: (mainLoop parse runH rest).1,
         (mainLoop parse runH rest).2) := by
  conv_lhs => rw [mainLoop]
  simp [hne, hparse]

/-- C4 witness: the loop on a malformed line followed by the end of input
emits the single parse-error line and terminates normally. -/
theorem c4_parse_error_line_witness :
    mainLoop parseNone runEmpty ["not json"]
      = ([dumps (create_error .null (-32700) "Parse error")], false) := by
  have h := c4_parse_error_line parseNone runEmpty "not json" [] (by decide) rfl
  simpa [mainLoop] using h

/-- C1 (amended): classification is a null test, not a presence test —
`request.get("id") is None`.  For every request object whose `id` key
holds a non-null value (zero included) and whose `method` value is
hashable, `process_request` returns exactly one response, and that
response's `id` member is the incoming value, verbatim; this holds for
every behaviour of the method handlers.  (A present `id` equal to null
falls into the notification branch and gets no response — see the
counterexample.) -/
theorem c1_id_echo (runH : String → Json → Except String Json)
    (kvs : List (String × Json)) (v : Json)
    (hid : List.lookup "id" kvs = some v) (hnn : jeq v .null = false)
    (hm : (objGetD kvs "method" (.str "")).hashable = true) :
    ∃ rkvs, process_request runH (.obj kvs) = .ok (some (.obj rkvs))
      ∧ List.lookup "id" rkvs = some v := by
  unfold process_request
  simp only [objGetD, hid, Option.getD_some]
  rw [hnn]
  simp only [Bool.false_eq_true, if_false]
  cases hmv : (List.lookup "method" kvs).getD (.str "") with
  | arr xs => rw [objGetD, hmv] at hm; simp [Json.hashable] at hm
  | obj okvs => rw [objGetD, hmv] at hm; simp [Json.hashable] at hm
  | str m =>
    by_cases hk : m ∈ knownMethods
    · simp only [hk, if_true]
      cases runH m (pyOr ((List.lookup "params" kvs).getD .null) (.obj [])) with
      | error e => exact ⟨_, rfl, rfl⟩
      | ok result =>
        cases herr : errKeyCheck result with
        | error e => simp only [herr]; exact ⟨_, rfl, rfl⟩
        | ok o =>
          cases o with
          | none => simp only [herr]; exact ⟨_, rfl, rfl⟩
          | some s => simp only [herr]; exact ⟨_, rfl, rfl⟩
    · simp only [hk, if_false]
      exact ⟨_, rfl, rfl⟩
  | null => exact ⟨_, rfl, rfl⟩
  | bool b => exact ⟨_, rfl, rfl⟩
  | num q => exact ⟨_, rfl, rfl⟩

/-- C1 counterexample: a line whose JSON object carries an explicit
`id: null` (the claim includes this case) is classified as a
notification and the session loop emits no response for it. -/
theorem c1_id_null_counterexample :
    process_request runEmpty (.obj [("id", Json.null), ("method", Json.str "initialize")])
      = .ok none := by rfl

/-- C1 witness: a request with `id: 0` (a falsy id) gets exactly one
response and the response echoes `id = 0`. -/
theorem c1_id_echo_witness :
    ∃ rkvs, process_request runEmpty
        (.obj [("id", Json.num 0), ("method", Json.str "initialize")])
        = .ok (some (.obj rkvs))
      ∧ List.lookup "id" rkvs = some (Json.num 0) :=
  c1_id_echo runEmpty [("id", Json.num 0), ("method", Json.str "initialize")]
    (Json.num 0) rfl rfl rfl

/-- C7: a `generate_video` invocation whose `prompt` is missing, empty or
otherwise falsy returns the `isError: true` tool result without posting
anything to `/v3/tasks` (the sent-payload component is `none`), and the
full request path wraps that result in a *success* JSON-RPC envelope
(`create_response`, not `create_error`) — for every transport, so the
outcome does not depend on the remote API at all. -/
theorem c7_empty_prompt (t : Transports) (akvs : List (String × Json)) (idv : Json)
    (hp : (objGetD akvs "prompt" (.str "")).truthy = false)
    (hid : jeq idv .null = false) :
    handle_generate_video t (.obj akvs) = (none, .ok genVideoPromptError)
  ∧ process_request (proxyRun t)
      (.obj [("id", idv), ("method", .str "tools/call"),
             ("params", .obj [("name", .str "generate_video"),
                              ("arguments", .obj akvs)])])
      = .ok (some (create_response idv genVideoPromptError)) := by
  have h1 : handle_generate_video t (.obj akvs) = (none, .ok genVideoPromptError) := by
    simp only [handle_generate_video, hp, Bool.not_false, if_true]
  refine ⟨h1, ?_⟩
  simp [process_request, objGetD, List.lookup, hid, proxyRun, handle_tools_call,
    jGet?, pyOr, Json.truthy, jeq, h1, errKeyCheck, knownMethods, bind, Except.bind,
    genVideoPromptError, toolErrorText]

/-- C7 witness: with no `prompt` argument at all, the handler returns the
`isError` payload without an HTTP call and the envelope is a success
response carrying it, for a transport answering `null` everywhere. -/
theorem c7_empty_prompt_witness :
    handle_generate_video tNull (.obj []) = (none, .ok genVideoPromptError)
  ∧ process_request (proxyRun tNull)
      (.obj [("id", Json.num 1), ("method", .str "tools/call"),
             ("params", .obj [("name", .str "generate_video"),
                              ("arguments", .obj [])])])
      = .ok (some (create_response (Json.num 1) genVideoPromptError)) :=
  c7_empty_prompt tNull [] (Json.num 1) rfl rfl

/-- C6: with a non-empty prompt, the params posted to `/v3/tasks` carry
the validated values: a `duration` outside {4, 6, 8} is replaced by 8
(and an in-range one passes through), an `aspect_ratio` outside
{16:9, 9:16} is replaced by 16:9, a `resolution` outside {720p, 1080p}
is replaced by 720p; and `estimate_video_cost` applies the same duration
replacement — an invalid duration behaves exactly like duration 8. -/
theorem c6_video_validation :
    (∀ (t : Transports) (akvs : List (String × Json)),
      (objGetD akvs "prompt" (.str "")).truthy = true →
      sentParamField (handle_generate_video t (.obj akvs)) "duration"
          = some (if validDurations.any (jeq (objGetD akvs "duration" (.num 8)))
                  then objGetD akvs "duration" (.num 8) else .num 8)
        ∧ sentParamField (handle_generate_video t (.obj akvs)) "aspect_ratio"
          = some (if [Json.str "16:9", Json.str "9:16"].any
                    (jeq (objGetD akvs "aspect_ratio" (.str "16:9")))
                  then objGetD akvs "aspect_ratio" (.str "16:9") else .str "16:9")
        ∧ sentParamField (handle_generate_video t (.obj akvs)) "resolution"
          = some (if [Json.str "720p", Json.str "1080p"].any
                    (jeq (objGetD akvs "resolution" (.str "720p")))
                  then objGetD akvs "resolution" (.str "720p") else .str "720p"))
  ∧ (∀ (ga d : Json), validDurations.any (jeq d) = false →
      handle_estimate_video_cost (.obj [("duration", d), ("generate_audio", ga)])
        = handle_estimate_video_cost (.obj [("duration", .num 8), ("generate_audio", ga)])) := by
  constructor
  · intro t akvs hp
    simp only [handle_generate_video, hp, Bool.not_true, Bool.false_eq_true, if_false]
    refine ⟨?_, ?_, ?_⟩ <;>
      (split <;> simp [sentParamField, List.lookup])
  · intro ga d hd
    simp [validDurations] at hd
    have hcond : ¬∃ x ∈ validDurations, jeq d x = true := by
      simp [validDurations, hd.1, hd.2.1, hd.2.2]
    simp [handle_estimate_video_cost, objGetD, List.lookup, hcond]

/-- C6 witness: `generate_video({prompt: "p", duration: 5})` posts
`duration = 8` (and the defaults pass validation unchanged), and
`estimate_video_cost({duration: 5})` behaves as `duration = 8`. -/
theorem c6_video_validation_witness :
    sentParamField (handle_generate_video tNull
        (.obj [("prompt", .str "p"), ("duration", .num 5)])) "duration"
      = some (.num 8)
  ∧ handle_estimate_video_cost (.obj [("duration", .num 5), ("generate_audio", .bool true)])
      = handle_estimate_video_cost
          (.obj [("duration", .num 8), ("generate_audio", .bool true)]) := by
  constructor
  · have h := (c6_video_validation.1 tNull
      [("prompt", .str "p"), ("duration", .num 5)] rfl).1
    simpa using h
  · exact c6_video_validation.2 (.bool true) (.num 5) rfl

/-- C5 (amended): in the task-lookup summary, (i) every successfully
built summary has at most one media URL line; (ii) on `completed`
status the media line follows the precedence audio URL over video URL
over image URL of the extracted values; (iii) the spec's example — a
completed task whose `result.items` holds `{audio_url: "u1"}` — yields
`u1` under the audio label and no video or image line; (iv) on `failed`
status the error message is surfaced when it is present *and truthy*
(so `error_message` equal to `""` or `null` is not surfaced — see the
counterexample); (v) on `pending`/`queued`/`executing` the summary has
no media lines and carries the still-in-progress advisory. -/
theorem c5_task_summary :
    (∀ (tid resp : Json) (ls : List String),
      taskLines tid resp = .ok ls → ls.countP isMediaLine ≤ 1)
  ∧ (∀ tid tty ec ac em au vu iu,
      (buildTaskLines tid tty (.str "completed") ec ac em au vu iu).filter isMediaLine
        = (if au.truthy then ["\n🎵 Audio URL: " ++ pyStr au]
           else if vu.truthy then ["\n🎬 Video URL: " ++ pyStr vu]
           else if iu.truthy then ["\n🖼️ Image URL: " ++ pyStr iu]
           else []))
  ∧ (taskLines (.str "t1")
        (.obj [("status", .str "completed"),
               ("result", .obj [("items", .arr [.obj [("audio_url", .str "u1")]])])])
      = .ok ["Task: t1", "Type: unknown", "Status: completed", "Estimated Cost: $N/A",
             "\n🎵 Audio URL: u1"])
  ∧ (∀ (tid : Json) (rkvs : List (String × Json)) (ls : List String),
      taskLines tid (.obj rkvs) = .ok ls →
      List.lookup "status" rkvs = some (.str "failed") →
      (objGetD rkvs "error_message" .null).truthy = true →
      ("\n❌ Error: " ++ pyStr (objGetD rkvs "error_message" .null)) ∈ ls)
  ∧ (∀ (tid : Json) (rkvs : List (String × Json)) (ls : List String) (s : String),
      taskLines tid (.obj rkvs) = .ok ls →
      objGetD rkvs "status" (.str "unknown") = .str s →
      s ∈ ["pending", "queued", "executing"] →
      ls.countP isMediaLine = 0
        ∧ ("\n⏳ Task is still " ++ s ++ ". Check again shortly.") ∈ ls) := by
  refine ⟨?_, filter_media_buildTaskLines, by rfl, ?_, ?_⟩
  · intro tid resp ls h
    obtain ⟨rkvs, au, vu, iu, -, hls⟩ := taskLines_ok_inv h
    rw [hls]
    exact countP_media_buildTaskLines _ _ _ _ _ _ _ _ _
  · intro tid rkvs ls h hst hem
    obtain ⟨rkvs2, au, vu, iu, heq, hls⟩ := taskLines_ok_inv h
    cases heq
    have hst2 : objGetD rkvs "status" (.str "unknown") = .str "failed" := by
      rw [objGetD, hst]; rfl
    rw [hls]
    unfold buildTaskLines
    rw [hst2]
    simp [hem, jeq]
  · intro tid rkvs ls s h hst hs
    obtain ⟨rkvs2, au, vu, iu, heq, hls⟩ := taskLines_ok_inv h
    cases heq
    rw [hls]
    unfold buildTaskLines
    rw [hst]
    fin_cases hs <;>
      refine ⟨?_, ?_⟩ <;>
      split <;>
      simp [jeq, pyStr, List.countP_cons, isMediaLine_task, isMediaLine_type,
        isMediaLine_status, isMediaLine_est, isMediaLine_act, isMediaLine_adv] <;>
      decide

/-- C5 witness: a failed task with a truthy error message gets the error
line in its summary. -/
theorem c5_task_summary_witness :
    ("\n❌ Error: " ++ pyStr (objGetD [("status", Json.str "failed"),
        ("error_message", Json.str "boom")] "error_message" .null))
      ∈ ["Task: t", "Type: unknown", "Status: failed", "Estimated Cost: $N/A",
         "\n❌ Error: boom"] :=
  c5_task_summary.2.2.2.1 (.str "t")
    [("status", Json.str "failed"), ("error_message", Json.str "boom")]
    ["Task: t", "Type: unknown", "Status: failed", "Estimated Cost: $N/A",
     "\n❌ Error: boom"] rfl rfl rfl

/-- C5 counterexample: a failed task whose `error_message` is present but
empty (falsy) produces a summary with no error line at all, refuting the
claim that a present `error_message` is always surfaced on failure. -/
theorem c5_task_summary_counterexample :
    taskLines (.str "t") (.obj [("status", .str "failed"), ("error_message", .str "")])
      = .ok ["Task: t", "Type: unknown", "Status: failed", "Estimated Cost: $N/A"] := by
  rfl

/-- C10: the `Actual Cost` line appears in the summary exactly when the
extracted `actual_cost` is truthy and not the `"N/A"` absence sentinel:
the guard is truthiness-based, so a present actual cost of `0` or `""`
(falsy values) suppresses the line just like an absent field. -/
theorem c10_actual_cost_guard (tid : Json) (rkvs : List (String × Json))
    (ls : List String) (h : taskLines tid (.obj rkvs) = .ok ls) :
    ls.any isActualCostLine
      = ((objGetD rkvs "actual_cost" (.str "N/A")).truthy
          && !(jeq (objGetD rkvs "actual_cost" (.str "N/A")) (.str "N/A"))) := by
  obtain ⟨rkvs2, au, vu, iu, heq, hls⟩ := taskLines_ok_inv h
  cases heq
  rw [hls]
  exact any_actual_buildTaskLines _ _ _ _ _ _ _ _ _

/-- C10 witness: a completed task whose `actual_cost` is the number `0`
— present, but falsy — shows no `Actual Cost` line. -/
theorem c10_actual_cost_guard_witness :
    (["Task: t", "Type: unknown", "Status: completed",
      "Estimated Cost: $N/A"].any isActualCostLine)
      = ((objGetD [("status", Json.str "completed"), ("actual_cost", Json.num 0)]
            "actual_cost" (.str "N/A")).truthy
          && !(jeq (objGetD [("status", Json.str "completed"), ("actual_cost", Json.num 0)]
            "actual_cost" (.str "N/A")) (.str "N/A"))) :=
  c10_actual_cost_guard (.str "t")
    [("status", Json.str "completed"), ("actual_cost", Json.num 0)]
    ["Task: t", "Type: unknown", "Status: completed", "Estimated Cost: $N/A"] rfl

/-- The way a non-string value can reach the `error` field of the
transport sentinel: the parsed error body is a dict whose `detail` is a
dict carrying that value under `message`. -/
def detailMessageVal (o : V3Outcome) (v : Json) : Prop :=
  ∃ m kvs dkvs bt, o = .httpStatusError m (some (.obj kvs)) bt
    ∧ List.lookup "detail" kvs = some (.obj dkvs)
    ∧ List.lookup "message" dkvs = some v

/-- C8 (amended): (i) `make_v3_request` never raises: for every HTTP
outcome it returns either the decoded JSON body (on success) or a dict
with a single `error` key; that key's value is a string in every case
except when a parsed error body carries a `detail.message` value, which
is passed through as-is (and need not be a string — see the
counterexample).  (ii) Whenever a method handler returns a result with a
string-valued `error` key, `process_request` emits a `-32000` error
response carrying that string — never a success response. -/
theorem c8_error_sentinel :
    (∀ o : V3Outcome,
      (∃ b, o = .success b ∧ make_v3_request_result o = b)
      ∨ (∃ v, make_v3_request_result o = .obj [("error", v)]
          ∧ ((∃ s, v = .str s) ∨ detailMessageVal o v)))
  ∧ (∀ (runH : String → Json → Except String Json) (kvs rkvs : List (String × Json))
      (idv : Json) (m s : String),
      objGetD kvs "id" .null = idv → jeq idv .null = false →
      objGetD kvs "method" (.str "") = .str m → m ∈ knownMethods →
      runH m (pyOr (objGetD kvs "params" .null) (.obj [])) = .ok (.obj rkvs) →
      List.lookup "error" rkvs = some (.str s) →
      process_request runH (.obj kvs) = .ok (some (create_error idv (-32000) s))) := by
  constructor
  · intro o
    match o with
    | .success b => exact .inl ⟨b, rfl, rfl⟩
    | .successBadJson m => exact .inr ⟨.str m, rfl, .inl ⟨m, rfl⟩⟩
    | .transportExc m => exact .inr ⟨.str m, rfl, .inl ⟨m, rfl⟩⟩
    | .httpStatusError m bodyJson bt =>
      match bodyJson with
      | none =>
        exact .inr ⟨_, rfl, .inl ⟨if bt = "" then m else bt.take 500, rfl⟩⟩
      | some (Json.obj kvs) =>
        cases hd : List.lookup "detail" kvs with
        | none =>
          exact .inr ⟨.str (pyStr (Json.obj [])),
            by simp [make_v3_request_result, objGetD, hd], .inl ⟨_, rfl⟩⟩
        | some detail =>
          cases detail with
          | obj dkvs =>
            cases hm : List.lookup "message" dkvs with
            | none =>
              exact .inr ⟨.str (pyStr (Json.obj dkvs)),
                by simp [make_v3_request_result, objGetD, hd, hm], .inl ⟨_, rfl⟩⟩
            | some v =>
              refine .inr ⟨v, ?_, .inr ⟨m, kvs, dkvs, bt, rfl, hd, hm⟩⟩
              simp [make_v3_request_result, objGetD, hd, hm]
          | str s =>
            exact .inr ⟨.str s,
              by simp [make_v3_request_result, objGetD, hd], .inl ⟨s, rfl⟩⟩
          | null =>
            exact .inr ⟨.str (pyStr (Json.obj kvs)),
              by simp [make_v3_request_result, objGetD, hd], .inl ⟨_, rfl⟩⟩
          | bool b =>
            exact .inr ⟨.str (pyStr (Json.obj kvs)),
              by simp [make_v3_request_result, objGetD, hd], .inl ⟨_, rfl⟩⟩
          | num q =>
            exact .inr ⟨.str (pyStr (Json.obj kvs)),
              by simp [make_v3_request_result, objGetD, hd], .inl ⟨_, rfl⟩⟩
          | arr xs =>
            exact .inr ⟨.str (pyStr (Json.obj kvs)),
              by simp [make_v3_request_result, objGetD, hd], .inl ⟨_, rfl⟩⟩
      | some Json.null => exact .inr ⟨.str m, rfl, .inl ⟨m, rfl⟩⟩
      | some (Json.bool b) => exact .inr ⟨.str m, rfl, .inl ⟨m, rfl⟩⟩
      | some (Json.num q) => exact .inr ⟨.str m, rfl, .inl ⟨m, rfl⟩⟩
      | some (Json.str s2) => exact .inr ⟨.str m, rfl, .inl ⟨m, rfl⟩⟩
      | some (Json.arr xs) => exact .inr ⟨.str m, rfl, .inl ⟨m, rfl⟩⟩
  · intro runH kvs rkvs idv m s hidv hnn hm hk hrun herr
    unfold process_request
    simp only [hidv, hm, hnn, Bool.false_eq_true, if_false]
    rw [if_pos hk, hrun]
    simp [errKeyCheck, herr]

/-- C8 witness: a handler result `{"error": "boom"}` is converted by the
loop into the `-32000` error envelope carrying `"boom"`. -/
theorem c8_error_sentinel_witness :
    process_request (fun _ _ => .ok (.obj [("error", .str "boom")]))
        (.obj [("id", Json.num 7), ("method", Json.str "tools/list")])
      = .ok (some (create_error (Json.num 7) (-32000) "boom")) :=
  c8_error_sentinel.2 (fun _ _ => .ok (.obj [("error", .str "boom")]))
    [("id", Json.num 7), ("method", Json.str "tools/list")]
    [("error", Json.str "boom")] (Json.num 7) "tools/list" "boom"
    rfl rfl rfl (by decide) rfl rfl

/-- C8 counterexample: an error body `{"detail": {"message": 5}}` makes
`make_v3_request` return `{"error": 5}` — an `error` key that is not
string-valued, refuting the claim that the sentinel always carries a
string. -/
theorem c8_error_sentinel_counterexample :
    make_v3_request_result
        (.httpStatusError "500 Server Error"
          (some (.obj [("detail", .obj [("message", .num 5)])])) "")
      = .obj [("error", .num 5)] := by rfl
